import Mathlib

/-!
Verification of the Warbler social-feed application's core data model and
authorization rules, as a shallow embedding of the request handlers in
`app.py` and the form validators in `forms.py`.

The relational store is modelled as an explicit state record holding the four
relations (users, messages, follow edges, like edges).  Each Flask view
function from `app.py` becomes a Lean function from the current state and the
optional authenticated identity (`g.user` / `session[CURR_USER_KEY]`) to a
result value plus the successor state.  A "flash message + redirect" rejection
in the handler is modelled as a dedicated result constructor that leaves the
state unchanged.

The data-access layer (`models.py`) is not part of the sources; where a claim
depends on its behavior (storage uniqueness constraints, the 140-character
`Message.text` bound, cascade rules on user deletion), the corresponding
definition is modelled from the specification and marked as such in its doc
comment.
-/

/-- A row of the `users` relation.  Of the columns in the spec's data model we
keep the ones the verified claims touch: the unique numeric identifier, the
unique username and the unique email.  The credential hash, image URLs, bio
and location play no role in any claim and are omitted. -/
structure UserRec where
  id : Nat
  username : String
  email : String
  deriving DecidableEq, Repr

/-- A row of the `messages` relation: unique numeric identifier, text content,
server-assigned creation timestamp (modelled as a Nat), and the owning user
reference (`user_id`). -/
structure MessageRec where
  id : Nat
  text : String
  timestamp : Nat
  user_id : Nat
  deriving DecidableEq, Repr

/-- The relational store: the four relations of the data model.  `follows`
holds (follower_id, followed_id) pairs; `likes` holds (user_id, message_id)
pairs.  Lists record the store's natural (insertion) order, which is the order
an unqualified query returns rows in. -/
structure DBState where
  users : List UserRec
  messages : List MessageRec
  follows : List (Nat × Nat)
  likes : List (Nat × Nat)
  deriving DecidableEq, Repr

/-- `User.query.get(id)` / `get_or_404(id)`: the user row with the given id,
if any. -/
def findUser (s : DBState) (uid : Nat) : Option UserRec :=
  s.users.find? (fun u => u.id == uid)

/-- `Message.query.get_or_404(id)`: the message row with the given id, if
any. -/
def findMessage (s : DBState) (mid : Nat) : Option MessageRec :=
  s.messages.find? (fun m => m.id == mid)

/-- The ids of the users the given user follows: `[user.id for user in
g.user.following]`. -/
def followingIds (s : DBState) (uid : Nat) : List Nat :=
  (s.follows.filter (fun p => p.1 == uid)).map (fun p => p.2)

/-- Outcome of the `toggle_like` view (`app.py`, `/messages/<id>/like`). -/
inductive ToggleLikeResult where
  | unauthenticated : ToggleLikeResult
  | notFound : ToggleLikeResult
  | forbidden : ToggleLikeResult
  | likedNow : ToggleLikeResult
  | unlikedNow : ToggleLikeResult
  deriving DecidableEq, Repr

/-- The `toggle_like` view function of `app.py`: requires a logged-in user;
404s when the message does not exist; rejects (flash + redirect, no mutation)
when the acting user owns the message (`msg.user_id ==
session[CURR_USER_KEY]`); otherwise removes the like edge when present
(`g.user.likes = [like for like in g.user.likes if like != msg]`) or appends
it when absent (`g.user.likes.append(msg)`). -/
def toggle_like (s : DBState) (currUser : Option Nat) (message_id : Nat) :
    ToggleLikeResult × DBState :=
  match currUser with
  | none => (ToggleLikeResult.unauthenticated, s)
  | some uid =>
    match findMessage s message_id with
    | none => (ToggleLikeResult.notFound, s)
    | some msg =>
      if msg.user_id == uid then
        (ToggleLikeResult.forbidden, s)
      else if (uid, msg.id) ∈ s.likes then
        (ToggleLikeResult.unlikedNow,
          { s with likes := s.likes.filter (fun p => p ≠ (uid, msg.id)) })
      else
        (ToggleLikeResult.likedNow, { s with likes := s.likes ++ [(uid, msg.id)] })

/-- A found message carries the id it was looked up by. -/
lemma findMessage_id {s : DBState} {mid : Nat} {msg : MessageRec}
    (h : findMessage s mid = some msg) : msg.id = mid := by
  have := List.find?_some h
  simpa using this

/-- Toggling a like never changes the messages relation. -/
lemma toggle_like_messages (s : DBState) (cu : Option Nat) (mid : Nat) :
    ((toggle_like s cu mid).2).messages = s.messages := by
  unfold toggle_like
  cases cu with
  | none => rfl
  | some uid =>
    cases h : findMessage s mid with
    | none => rfl
    | some msg =>
      by_cases h1 : msg.user_id = uid
      · simp [h1]
      · by_cases h2 : (uid, msg.id) ∈ s.likes <;> simp [h1, h2]

/-- For a non-owner, a like toggle removes the (user, message) edge when it is
present and appends it when it is absent. -/
lemma toggle_like_not_owner (s : DBState) (uid mid : Nat) (msg : MessageRec)
    (hfind : findMessage s mid = some msg) (hown : msg.user_id ≠ uid) :
    toggle_like s (some uid) mid =
      if (uid, mid) ∈ s.likes then
        (ToggleLikeResult.unlikedNow,
          { s with likes := s.likes.filter (fun p => p ≠ (uid, mid)) })
      else
        (ToggleLikeResult.likedNow, { s with likes := s.likes ++ [(uid, mid)] }) := by
  have hmid : msg.id = mid := findMessage_id hfind
  subst hmid
  by_cases h : (uid, msg.id) ∈ s.likes <;> simp [toggle_like, hfind, hown, h]

/-- C1: toggling a like on one's own message is rejected as forbidden and the
state, in particular the like-edge set, is unchanged. -/
theorem toggle_like_own_message_forbidden
    (s : DBState) (uid message_id : Nat) (msg : MessageRec)
    (hfind : findMessage s message_id = some msg)
    (hown : msg.user_id = uid) :
    toggle_like s (some uid) message_id = (ToggleLikeResult.forbidden, s) := by
  simp [toggle_like, hfind, hown]

/-- Witness for C1: a concrete state in which user 1 owns message 10 and tries
to like it. -/
theorem toggle_like_own_message_forbidden_witness :
    findMessage ⟨[⟨1, "alice", "a@x.com"⟩], [⟨10, "hello", 5, 1⟩], [], []⟩ 10 =
      some ⟨10, "hello", 5, 1⟩ ∧
    toggle_like ⟨[⟨1, "alice", "a@x.com"⟩], [⟨10, "hello", 5, 1⟩], [], []⟩ (some 1) 10 =
      (ToggleLikeResult.forbidden, ⟨[⟨1, "alice", "a@x.com"⟩], [⟨10, "hello", 5, 1⟩], [], []⟩) :=
  ⟨by decide,
    toggle_like_own_message_forbidden
      ⟨[⟨1, "alice", "a@x.com"⟩], [⟨10, "hello", 5, 1⟩], [], []⟩ 1 10
      ⟨10, "hello", 5, 1⟩ (by decide) rfl⟩

/-- C3: for a non-owner, toggling a like twice on the same (user, message)
pair returns the pair's like-state to what it was before the first toggle;
and starting from the unliked state the sequence like, unlike, like reports
liked, unliked, liked and ends with exactly one like edge for the pair. -/
theorem toggle_like_twice_roundtrip
    (s : DBState) (uid mid : Nat) (msg : MessageRec)
    (hfind : findMessage s mid = some msg) (hown : msg.user_id ≠ uid) :
    (((uid, mid) ∈ (toggle_like (toggle_like s (some uid) mid).2 (some uid) mid).2.likes) ↔
      (uid, mid) ∈ s.likes) ∧
    ((uid, mid) ∉ s.likes →
      (toggle_like s (some uid) mid).1 = ToggleLikeResult.likedNow ∧
      (toggle_like (toggle_like s (some uid) mid).2 (some uid) mid).1 =
        ToggleLikeResult.unlikedNow ∧
      (toggle_like (toggle_like (toggle_like s (some uid) mid).2 (some uid) mid).2
          (some uid) mid).1 = ToggleLikeResult.likedNow ∧
      (toggle_like (toggle_like (toggle_like s (some uid) mid).2 (some uid) mid).2
          (some uid) mid).2.likes.count (uid, mid) = 1) := by
  by_cases h : (uid, mid) ∈ s.likes
  · -- edge present: first toggle removes it, second re-adds it
    have e1 : toggle_like s (some uid) mid =
        (ToggleLikeResult.unlikedNow,
          { s with likes := s.likes.filter (fun p => p ≠ (uid, mid)) }) := by
      rw [toggle_like_not_owner s uid mid msg hfind hown]; simp [h]
    set s1 : DBState := { s with likes := s.likes.filter (fun p => p ≠ (uid, mid)) } with hs1
    have hfind1 : findMessage s1 mid = some msg := hfind
    have h1 : (uid, mid) ∉ s1.likes := by simp [hs1]
    have e2 : toggle_like s1 (some uid) mid =
        (ToggleLikeResult.likedNow, { s1 with likes := s1.likes ++ [(uid, mid)] }) := by
      rw [toggle_like_not_owner s1 uid mid msg hfind1 hown]; simp [h1]
    constructor
    · rw [e1]
      simp only [e2]
      simp [h]
    · intro habs; exact absurd h habs
  · -- edge absent: first toggle appends it, second removes it, third re-adds it
    have e1 : toggle_like s (some uid) mid =
        (ToggleLikeResult.likedNow, { s with likes := s.likes ++ [(uid, mid)] }) := by
      rw [toggle_like_not_owner s uid mid msg hfind hown]; simp [h]
    set s1 : DBState := { s with likes := s.likes ++ [(uid, mid)] } with hs1
    have hfind1 : findMessage s1 mid = some msg := hfind
    have h1 : (uid, mid) ∈ s1.likes := by simp [hs1]
    have e2 : toggle_like s1 (some uid) mid =
        (ToggleLikeResult.unlikedNow,
          { s1 with likes := s1.likes.filter (fun p => p ≠ (uid, mid)) }) := by
      rw [toggle_like_not_owner s1 uid mid msg hfind1 hown]; simp [h1]
    have hself : s.likes.filter (fun p => p ≠ (uid, mid)) = s.likes := by
      apply List.filter_eq_self.mpr
      intro a ha
      simp only [decide_eq_true_eq]
      intro hcontra
      exact h (hcontra ▸ ha)
    have hlikes1 : s1.likes.filter (fun p => p ≠ (uid, mid)) = s.likes := by
      simp only [hs1]
      rw [List.filter_append, hself]
      simp
    set s2 : DBState := { s1 with likes := s1.likes.filter (fun p => p ≠ (uid, mid)) }
      with hs2
    have hfind2 : findMessage s2 mid = some msg := hfind
    have h2 : (uid, mid) ∉ s2.likes := by simp [hs2, hlikes1, h]
    have e3 : toggle_like s2 (some uid) mid =
        (ToggleLikeResult.likedNow, { s2 with likes := s2.likes ++ [(uid, mid)] }) := by
      rw [toggle_like_not_owner s2 uid mid msg hfind2 hown]; simp [h2]
    constructor
    · rw [e1]
      simp only [e2]
      simp [hlikes1, h]
    · intro _
      have hs2likes : s2.likes = s.likes := hlikes1
      refine ⟨by rw [e1], by rw [e1]; simp only [e2], ?_, ?_⟩
      · rw [e1]; simp only [e2]; rw [e3]
      · rw [e1]; simp only [e2]; rw [e3]
        show (s2.likes ++ [(uid, mid)]).count (uid, mid) = 1
        rw [hs2likes, List.count_append, List.count_eq_zero.mpr h]
        simp

/-- Witness for C3: user 2 double- and triple-toggles a like on message 10
owned by user 1, starting from the unliked state. -/
theorem toggle_like_twice_roundtrip_witness :
    (findMessage ⟨[⟨1, "alice", "a@x.com"⟩, ⟨2, "bob", "b@x.com"⟩],
        [⟨10, "hello", 5, 1⟩], [], []⟩ 10 = some ⟨10, "hello", 5, 1⟩ ∧
      (⟨10, "hello", 5, 1⟩ : MessageRec).user_id ≠ 2) ∧
    (((2, 10) ∈ (toggle_like (toggle_like ⟨[⟨1, "alice", "a@x.com"⟩, ⟨2, "bob", "b@x.com"⟩],
          [⟨10, "hello", 5, 1⟩], [], []⟩ (some 2) 10).2 (some 2) 10).2.likes) ↔
      (2, 10) ∈ (⟨[⟨1, "alice", "a@x.com"⟩, ⟨2, "bob", "b@x.com"⟩],
          [⟨10, "hello", 5, 1⟩], [], []⟩ : DBState).likes) ∧
    ((2, 10) ∉ (⟨[⟨1, "alice", "a@x.com"⟩, ⟨2, "bob", "b@x.com"⟩],
          [⟨10, "hello", 5, 1⟩], [], []⟩ : DBState).likes →
      (toggle_like ⟨[⟨1, "alice", "a@x.com"⟩, ⟨2, "bob", "b@x.com"⟩],
          [⟨10, "hello", 5, 1⟩], [], []⟩ (some 2) 10).1 = ToggleLikeResult.likedNow ∧
      (toggle_like (toggle_like ⟨[⟨1, "alice", "a@x.com"⟩, ⟨2, "bob", "b@x.com"⟩],
          [⟨10, "hello", 5, 1⟩], [], []⟩ (some 2) 10).2 (some 2) 10).1 =
        ToggleLikeResult.unlikedNow ∧
      (toggle_like (toggle_like (toggle_like ⟨[⟨1, "alice", "a@x.com"⟩, ⟨2, "bob", "b@x.com"⟩],
          [⟨10, "hello", 5, 1⟩], [], []⟩ (some 2) 10).2 (some 2) 10).2 (some 2) 10).1 =
        ToggleLikeResult.likedNow ∧
      (toggle_like (toggle_like (toggle_like ⟨[⟨1, "alice", "a@x.com"⟩, ⟨2, "bob", "b@x.com"⟩],
          [⟨10, "hello", 5, 1⟩], [], []⟩ (some 2) 10).2 (some 2) 10).2 (some 2) 10).2.likes.count
        (2, 10) = 1) :=
  ⟨⟨by decide, by decide⟩,
    toggle_like_twice_roundtrip
      ⟨[⟨1, "alice", "a@x.com"⟩, ⟨2, "bob", "b@x.com"⟩], [⟨10, "hello", 5, 1⟩], [], []⟩
      2 10 ⟨10, "hello", 5, 1⟩ (by decide) (by decide)⟩

/-- Membership in the following-ids list is exactly membership of the
(follower, followed) pair in the follows relation. -/
lemma mem_followingIds (s : DBState) (uid fid : Nat) :
    fid ∈ followingIds s uid ↔ (uid, fid) ∈ s.follows := by
  constructor
  · intro hmem
    rcases List.mem_map.mp hmem with ⟨p, hp, hp2⟩
    rcases List.mem_filter.mp hp with ⟨hpf, hp1⟩
    have h1 : p.1 = uid := by simpa using hp1
    have hpe : p = (uid, fid) := by
      cases p
      simp_all
    exact hpe ▸ hpf
  · intro hmem
    apply List.mem_map.mpr
    refine ⟨(uid, fid), ?_, rfl⟩
    exact List.mem_filter.mpr ⟨hmem, by simp⟩

/-- Outcome of the `stop_following` view (`app.py`,
`/users/stop-following/<id>`). -/
inductive StopFollowingResult where
  | unauthenticated : StopFollowingResult
  | notFollowing : StopFollowingResult
  | success : StopFollowingResult
  deriving DecidableEq, Repr

/-- The `stop_following` view function of `app.py`: requires a logged-in user;
computes `following_ids = [user.id for user in g.user.following]` and, when
`follow_id not in following_ids`, flashes "You are already not following this
user" and redirects without mutating; otherwise removes the followed user from
`g.user.following` and commits. -/
def stop_following (s : DBState) (currUser : Option Nat) (follow_id : Nat) :
    StopFollowingResult × DBState :=
  match currUser with
  | none => (StopFollowingResult.unauthenticated, s)
  | some uid =>
    if follow_id ∉ followingIds s uid then
      (StopFollowingResult.notFollowing, s)
    else
      (StopFollowingResult.success,
        { s with follows := s.follows.filter (fun p => p ≠ (uid, follow_id)) })

/-- C9: unfollowing a user one is not currently following reports the
"not following" condition and leaves the state (so the follow-edge set)
unchanged. -/
theorem stop_following_not_following (s : DBState) (uid fid : Nat)
    (h : (uid, fid) ∉ s.follows) :
    stop_following s (some uid) fid = (StopFollowingResult.notFollowing, s) := by
  have hnot : fid ∉ followingIds s uid := fun hf => h ((mem_followingIds s uid fid).mp hf)
  simp [stop_following, hnot]

/-- Witness for C9: user 1 tries to unfollow user 2 while only the reverse
edge (2 follows 1) exists. -/
theorem stop_following_not_following_witness :
    ((1, 2) ∉ (⟨[⟨1, "alice", "a@x.com"⟩, ⟨2, "bob", "b@x.com"⟩], [], [(2, 1)], []⟩ :
        DBState).follows) ∧
    stop_following ⟨[⟨1, "alice", "a@x.com"⟩, ⟨2, "bob", "b@x.com"⟩], [], [(2, 1)], []⟩
        (some 1) 2 =
      (StopFollowingResult.notFollowing,
        ⟨[⟨1, "alice", "a@x.com"⟩, ⟨2, "bob", "b@x.com"⟩], [], [(2, 1)], []⟩) :=
  ⟨by decide,
    stop_following_not_following
      ⟨[⟨1, "alice", "a@x.com"⟩, ⟨2, "bob", "b@x.com"⟩], [], [(2, 1)], []⟩ 1 2 (by decide)⟩

/-- Modelled from the spec: the cascade behavior of account deletion lives in
the data-access layer (`models.py`), which is not among the sources.  Spec
§4.1: `deleteUser(id)` "cascades: deletes all Messages owned by the user, all
Follow edges where the user is either endpoint, all Like edges where the user
is the liker".  Spec §3 additionally destroys a Like edge "transitively when
either endpoint is destroyed", so likes pointing at the user's (deleted)
messages are removed as well. -/
def deleteUserCascade (s : DBState) (uid : Nat) : DBState :=
  { users := s.users.filter (fun u => u.id ≠ uid)
    messages := s.messages.filter (fun m => m.user_id ≠ uid)
    follows := s.follows.filter (fun p => decide (p.1 ≠ uid ∧ p.2 ≠ uid))
    likes := s.likes.filter (fun p =>
      decide (p.1 ≠ uid ∧ ¬ ∃ m ∈ s.messages, m.id = p.2 ∧ m.user_id = uid)) }

/-- Outcome of the `delete_user` view (`app.py`, `/users/delete`). -/
inductive DeleteUserResult where
  | unauthenticated : DeleteUserResult
  | success : DeleteUserResult
  deriving DecidableEq, Repr

/-- The `delete_user` view function of `app.py`: requires a logged-in user;
logs the caller out (`do_logout`), deletes the user row
(`db.session.delete(g.user)`) and commits, which fires the data-access layer's
cascades.  Returns the result, the session identity afterwards, and the new
state. -/
def delete_user (s : DBState) (currUser : Option Nat) :
    DeleteUserResult × Option Nat × DBState :=
  match currUser with
  | none => (DeleteUserResult.unauthenticated, none, s)
  | some uid => (DeleteUserResult.success, none, deleteUserCascade s uid)

/-- C2: deleting an existing user's account succeeds, and afterwards the user
row is gone, no message owned by the user remains, no follow edge with the
user at either endpoint remains, and no like edge with the user as liker
remains. -/
theorem delete_user_cascades (s : DBState) (uid : Nat) (u : UserRec)
    (hfind : findUser s uid = some u) :
    (delete_user s (some uid)).1 = DeleteUserResult.success ∧
    (delete_user s (some uid)).2.1 = none ∧
    (∀ v ∈ ((delete_user s (some uid)).2.2).users, v.id ≠ uid) ∧
    (∀ m ∈ ((delete_user s (some uid)).2.2).messages, m.user_id ≠ uid) ∧
    (∀ p ∈ ((delete_user s (some uid)).2.2).follows, p.1 ≠ uid ∧ p.2 ≠ uid) ∧
    (∀ p ∈ ((delete_user s (some uid)).2.2).likes, p.1 ≠ uid) := by
  refine ⟨rfl, rfl, ?_, ?_, ?_, ?_⟩
  · intro v hv
    have := (List.mem_filter.mp hv).2
    simpa using this
  · intro m hm
    have := (List.mem_filter.mp hm).2
    simpa using this
  · intro p hp
    have := (List.mem_filter.mp hp).2
    simpa using this
  · intro p hp
    have := (List.mem_filter.mp hp).2
    simp only [decide_eq_true_eq] at this
    exact this.1

/-- Witness for C2: deleting user 1, who owns a message, follows and is
followed, and has liked a message. -/
theorem delete_user_cascades_witness :
    (findUser ⟨[⟨1, "alice", "a@x.com"⟩, ⟨2, "bob", "b@x.com"⟩],
        [⟨10, "hello", 5, 1⟩, ⟨11, "yo", 6, 2⟩], [(1, 2), (2, 1)], [(1, 11), (2, 10)]⟩ 1 =
      some ⟨1, "alice", "a@x.com"⟩) ∧
    (delete_user ⟨[⟨1, "alice", "a@x.com"⟩, ⟨2, "bob", "b@x.com"⟩],
        [⟨10, "hello", 5, 1⟩, ⟨11, "yo", 6, 2⟩], [(1, 2), (2, 1)], [(1, 11), (2, 10)]⟩
      (some 1)).1 = DeleteUserResult.success ∧
    (∀ p ∈ ((delete_user ⟨[⟨1, "alice", "a@x.com"⟩, ⟨2, "bob", "b@x.com"⟩],
        [⟨10, "hello", 5, 1⟩, ⟨11, "yo", 6, 2⟩], [(1, 2), (2, 1)], [(1, 11), (2, 10)]⟩
      (some 1)).2.2).likes, p.1 ≠ 1) :=
  ⟨by decide,
    (delete_user_cascades ⟨[⟨1, "alice", "a@x.com"⟩, ⟨2, "bob", "b@x.com"⟩],
        [⟨10, "hello", 5, 1⟩, ⟨11, "yo", 6, 2⟩], [(1, 2), (2, 1)], [(1, 11), (2, 10)]⟩
      1 ⟨1, "alice", "a@x.com"⟩ (by decide)).1,
    (delete_user_cascades ⟨[⟨1, "alice", "a@x.com"⟩, ⟨2, "bob", "b@x.com"⟩],
        [⟨10, "hello", 5, 1⟩, ⟨11, "yo", 6, 2⟩], [(1, 2), (2, 1)], [(1, 11), (2, 10)]⟩
      1 ⟨1, "alice", "a@x.com"⟩ (by decide)).2.2.2.2.2⟩

/-- Outcome of the `add_follow` view (`app.py`, `/users/follow/<id>`). -/
inductive AddFollowResult where
  | unauthenticated : AddFollowResult
  | notFound : AddFollowResult
  | integrityViolation : AddFollowResult
  | success : AddFollowResult
  deriving DecidableEq, Repr

/-- Modelled from the spec: the `follows` relation lives in the data-access
layer (`models.py`), which is not among the sources.  Spec §3 makes the pair
uniqueness a relational invariant ("the pair (follower_id, followed_id) is
unique — no duplicate follow edges") enforced by the store, so committing an
insert of an already-present pair raises a storage-level integrity error and
the relation is left unchanged; otherwise the edge row is appended. -/
def insertFollow (s : DBState) (edge : Nat × Nat) : Except Unit DBState :=
  if edge ∈ s.follows then Except.error ()
  else Except.ok { s with follows := s.follows ++ [edge] }

/-- The `add_follow` view function of `app.py`: requires a logged-in user;
404s when the target user does not exist; then unconditionally appends the
edge (`g.user.following.append(followed_user)`) and commits.  There is no
already-following check and no IntegrityError handler around the commit, so a
duplicate insert surfaces as an uncaught storage-level integrity error. -/
def add_follow (s : DBState) (currUser : Option Nat) (follow_id : Nat) :
    AddFollowResult × DBState :=
  match currUser with
  | none => (AddFollowResult.unauthenticated, s)
  | some uid =>
    match findUser s follow_id with
    | none => (AddFollowResult.notFound, s)
    | some _ =>
      match insertFollow s (uid, follow_id) with
      | Except.error _ => (AddFollowResult.integrityViolation, s)
      | Except.ok s2 => (AddFollowResult.success, s2)

/-- Counterexample to C4: user 1 already follows user 2, both exist; invoking
add-follow again does not succeed as a no-op — it surfaces the storage-level
integrity violation uncaught. -/
theorem add_follow_refollow_not_noop :
    (add_follow ⟨[⟨1, "alice", "a@x.com"⟩, ⟨2, "bob", "b@x.com"⟩], [], [(1, 2)], []⟩
        (some 1) 2).1 = AddFollowResult.integrityViolation ∧
    (add_follow ⟨[⟨1, "alice", "a@x.com"⟩, ⟨2, "bob", "b@x.com"⟩], [], [(1, 2)], []⟩
        (some 1) 2).1 ≠ AddFollowResult.success := by
  constructor
  · rfl
  · intro hcontra
    exact absurd hcontra (by decide)

/-- C4 (amended): re-following an already-followed existing user does not
create a duplicate edge, but it is not a no-op success: the unconditional
append hits the storage-level pair-uniqueness constraint and the commit fails
with an uncaught integrity error, leaving the whole state unchanged. -/
theorem add_follow_refollow_integrity_error (s : DBState) (uid fid : Nat)
    (u : UserRec) (hfind : findUser s fid = some u)
    (hedge : (uid, fid) ∈ s.follows) :
    add_follow s (some uid) fid = (AddFollowResult.integrityViolation, s) := by
  simp [add_follow, hfind, insertFollow, hedge]

/-- Witness for the amended C4: user 1 re-follows user 2. -/
theorem add_follow_refollow_integrity_error_witness :
    (findUser ⟨[⟨1, "alice", "a@x.com"⟩, ⟨2, "bob", "b@x.com"⟩], [], [(1, 2)], []⟩ 2 =
      some ⟨2, "bob", "b@x.com"⟩) ∧
    ((1, 2) ∈ (⟨[⟨1, "alice", "a@x.com"⟩, ⟨2, "bob", "b@x.com"⟩], [], [(1, 2)], []⟩ :
        DBState).follows) ∧
    add_follow ⟨[⟨1, "alice", "a@x.com"⟩, ⟨2, "bob", "b@x.com"⟩], [], [(1, 2)], []⟩
        (some 1) 2 =
      (AddFollowResult.integrityViolation,
        ⟨[⟨1, "alice", "a@x.com"⟩, ⟨2, "bob", "b@x.com"⟩], [], [(1, 2)], []⟩) :=
  ⟨by decide, by decide,
    add_follow_refollow_integrity_error
      ⟨[⟨1, "alice", "a@x.com"⟩, ⟨2, "bob", "b@x.com"⟩], [], [(1, 2)], []⟩ 1 2
      ⟨2, "bob", "b@x.com"⟩ (by decide) (by decide)⟩

/-- The comparison realized by `order_by(Message.timestamp.desc())`: a row
sorts before another exactly when its creation timestamp is at least as
large. -/
def tsDesc (a b : MessageRec) : Prop := b.timestamp ≤ a.timestamp

instance : DecidableRel tsDesc := fun a b => Nat.decLe b.timestamp a.timestamp

instance : IsTotal MessageRec tsDesc := ⟨fun a b => Nat.le_total b.timestamp a.timestamp⟩

instance : IsTrans MessageRec tsDesc := ⟨fun _ _ _ hab hbc => Nat.le_trans hbc hab⟩

/-- The query behind the home feed (`app.py`, `homepage`):
`Message.query.filter(Message.user_id.in_(ids)).order_by(Message.timestamp.desc()).limit(n).all()`.
Timestamp descending is the only sort key the query names — it has no
secondary key — so the query leaves the relative order of equal-timestamp rows
unspecified (see `admissibleRecentResult` for the query's contract).  An
executable embedding must fix one admissible order; this one uses a stable
sort over the stored row order, an arbitrary admissible resolution that the
query itself does not guarantee.  Theorems about this definition rely only on
properties shared by every admissible resolution, except where they expressly
quantify over `admissibleRecentResult`. -/
def recentMessagesForUsers (s : DBState) (userIds : List Nat) (limit : Nat) :
    List MessageRec :=
  (List.insertionSort tsDesc (s.messages.filter (fun m => m.user_id ∈ userIds))).take limit

/-- The `homepage` view function of `app.py`: an anonymous caller sees no
messages; a logged-in user sees the query above over `matching_user_ids =
[user.id for user in g.user.following] + [g.user.id]` with a limit of 100. -/
def homepage (s : DBState) (currUser : Option Nat) : List MessageRec :=
  match currUser with
  | none => []
  | some uid => recentMessagesForUsers s (followingIds s uid ++ [uid]) 100

/-- The recent-messages query returns a timestamp-descending list. -/
lemma recentMessages_sorted (s : DBState) (userIds : List Nat) (limit : Nat) :
    List.Sorted tsDesc (recentMessagesForUsers s userIds limit) :=
  List.Pairwise.sublist (List.take_sublist limit _)
    (List.sorted_insertionSort tsDesc (s.messages.filter (fun m => m.user_id ∈ userIds)))

/-- Every row the recent-messages query returns is a stored message owned by
one of the requested users. -/
lemma recentMessages_mem {s : DBState} {userIds : List Nat} {limit : Nat}
    {m : MessageRec} (hm : m ∈ recentMessagesForUsers s userIds limit) :
    m ∈ s.messages ∧ m.user_id ∈ userIds := by
  have h1 : m ∈ List.insertionSort tsDesc
      (s.messages.filter (fun m => m.user_id ∈ userIds)) :=
    (List.take_sublist limit _).subset hm
  have h2 : m ∈ s.messages.filter (fun m => m.user_id ∈ userIds) :=
    (List.mem_insertionSort tsDesc).mp h1
  have h3 := List.mem_filter.mp h2
  exact ⟨h3.1, by simpa using h3.2⟩

/-- When at most `limit` messages match, the recent-messages query returns
every matching message. -/
lemma recentMessages_complete {s : DBState} {userIds : List Nat} {limit : Nat}
    (hlen : (s.messages.filter (fun m => m.user_id ∈ userIds)).length ≤ limit)
    {m : MessageRec} (hm : m ∈ s.messages) (hmid : m.user_id ∈ userIds) :
    m ∈ recentMessagesForUsers s userIds limit := by
  unfold recentMessagesForUsers
  rw [List.take_of_length_le]
  · exact (List.mem_insertionSort tsDesc).mpr (List.mem_filter.mpr ⟨hm, by simpa⟩)
  · rw [List.length_insertionSort]
    exact hlen

/-- C5: the home feed is empty for an anonymous caller; for an authenticated
user every feed entry is a stored message owned by a followed user or by the
user, the feed is ordered by creation timestamp descending and holds at most
100 entries, and whenever at most 100 messages match, every matching message
appears. -/
theorem homepage_feed_characterization (s : DBState) (uid : Nat) :
    homepage s none = [] ∧
    (∀ m ∈ homepage s (some uid),
      m ∈ s.messages ∧ (m.user_id ∈ followingIds s uid ∨ m.user_id = uid)) ∧
    List.Sorted tsDesc (homepage s (some uid)) ∧
    (homepage s (some uid)).length ≤ 100 ∧
    ((s.messages.filter (fun m => m.user_id ∈ followingIds s uid ++ [uid])).length ≤ 100 →
      ∀ m ∈ s.messages, (m.user_id ∈ followingIds s uid ∨ m.user_id = uid) →
        m ∈ homepage s (some uid)) := by
  refine ⟨rfl, ?_, ?_, ?_, ?_⟩
  · intro m hm
    have := @recentMessages_mem s (followingIds s uid ++ [uid]) 100 m hm
    refine ⟨this.1, ?_⟩
    have h2 := this.2
    simpa using h2
  · exact recentMessages_sorted s (followingIds s uid ++ [uid]) 100
  · exact List.length_take_le 100 _
  · intro hlen m hm hown
    exact recentMessages_complete hlen hm (by simpa using hown)

/-- Witness for C5: user 1 follows user 2 and not user 3; user 2's message is
in user 1's home feed even though user 3 also posted. -/
theorem homepage_feed_characterization_witness :
    ((⟨[⟨1, "alice", "a@x.com"⟩, ⟨2, "bob", "b@x.com"⟩, ⟨3, "carol", "c@x.com"⟩],
        [⟨10, "from bob", 5, 2⟩, ⟨11, "from alice", 6, 1⟩, ⟨12, "from carol", 7, 3⟩],
        [(1, 2)], []⟩ : DBState).messages.filter
      (fun m => m.user_id ∈ followingIds ⟨[⟨1, "alice", "a@x.com"⟩, ⟨2, "bob", "b@x.com"⟩,
        ⟨3, "carol", "c@x.com"⟩], [⟨10, "from bob", 5, 2⟩, ⟨11, "from alice", 6, 1⟩,
        ⟨12, "from carol", 7, 3⟩], [(1, 2)], []⟩ 1 ++ [1])).length ≤ 100 ∧
    (⟨10, "from bob", 5, 2⟩ : MessageRec) ∈
      homepage ⟨[⟨1, "alice", "a@x.com"⟩, ⟨2, "bob", "b@x.com"⟩, ⟨3, "carol", "c@x.com"⟩],
        [⟨10, "from bob", 5, 2⟩, ⟨11, "from alice", 6, 1⟩, ⟨12, "from carol", 7, 3⟩],
        [(1, 2)], []⟩ (some 1) :=
  ⟨by decide,
    (homepage_feed_characterization
        ⟨[⟨1, "alice", "a@x.com"⟩, ⟨2, "bob", "b@x.com"⟩, ⟨3, "carol", "c@x.com"⟩],
          [⟨10, "from bob", 5, 2⟩, ⟨11, "from alice", 6, 1⟩, ⟨12, "from carol", 7, 3⟩],
          [(1, 2)], []⟩ 1).2.2.2.2
      (by decide) ⟨10, "from bob", 5, 2⟩ (by decide) (by decide)⟩

/-- The ordering the specification prescribes for `recentMessagesForUsers`:
creation timestamp descending with ties broken by identifier descending.
Stated from the spec's words, for comparison against the source's query
order. -/
def tsIdDesc (a b : MessageRec) : Prop :=
  b.timestamp < a.timestamp ∨ (b.timestamp = a.timestamp ∧ b.id ≤ a.id)

instance : DecidableRel tsIdDesc := fun a b =>
  inferInstanceAs (Decidable (b.timestamp < a.timestamp ∨
    (b.timestamp = a.timestamp ∧ b.id ≤ a.id)))

/-- What the source query specifies about its result
(`order_by(Message.timestamp.desc()).limit(limit)`, `app.py` line 403): the
store may hand back the matching rows in any arrangement consistent with the
single named sort key — creation timestamp descending — and that arrangement
is then capped at `limit`.  The relative order of equal-timestamp rows is left
open by the query. -/
def admissibleRecentResult (s : DBState) (userIds : List Nat) (limit : Nat)
    (out : List MessageRec) : Prop :=
  ∃ arrangement : List MessageRec,
    arrangement.Perm (s.messages.filter (fun m => m.user_id ∈ userIds)) ∧
    List.Sorted tsDesc arrangement ∧ out = arrangement.take limit

/-- Counterexample to C6: for two matching messages with equal timestamps, an
identifier-ascending result is admissible for the query — so the query does
not order equal-timestamp messages by identifier descending — and the
identifier-descending result is admissible as well, so the returned sequence
is not determined either. -/
theorem recentMessages_no_id_tiebreak :
    admissibleRecentResult ⟨[⟨1, "alice", "a@x.com"⟩],
        [⟨1, "first", 5, 1⟩, ⟨2, "second", 5, 1⟩], [], []⟩ [1] 100
      [⟨1, "first", 5, 1⟩, ⟨2, "second", 5, 1⟩] ∧
    ¬ List.Sorted tsIdDesc [(⟨1, "first", 5, 1⟩ : MessageRec), ⟨2, "second", 5, 1⟩] ∧
    admissibleRecentResult ⟨[⟨1, "alice", "a@x.com"⟩],
        [⟨1, "first", 5, 1⟩, ⟨2, "second", 5, 1⟩], [], []⟩ [1] 100
      [⟨2, "second", 5, 1⟩, ⟨1, "first", 5, 1⟩] :=
  ⟨⟨[⟨1, "first", 5, 1⟩, ⟨2, "second", 5, 1⟩], by decide, by decide, by decide⟩,
    by decide,
    ⟨[⟨2, "second", 5, 1⟩, ⟨1, "first", 5, 1⟩], by decide, by decide, by decide⟩⟩

/-- C6 (amended): the recent-messages query orders its result by creation
timestamp descending, its only sort key; the identifier plays no role and the
relative order of equal-timestamp messages is not specified.  Formally: the
embedded query returns an admissible result, and every admissible result is
sorted by timestamp descending — nothing more about the order is
guaranteed. -/
theorem recentMessages_order_underspecified
    (s : DBState) (userIds : List Nat) (limit : Nat) :
    admissibleRecentResult s userIds limit (recentMessagesForUsers s userIds limit) ∧
    (∀ out : List MessageRec, admissibleRecentResult s userIds limit out →
      List.Sorted tsDesc out) := by
  constructor
  · exact ⟨List.insertionSort tsDesc (s.messages.filter (fun m => m.user_id ∈ userIds)),
      List.perm_insertionSort tsDesc _, List.sorted_insertionSort tsDesc _, rfl⟩
  · rintro out ⟨arrangement, -, hsorted, hout⟩
    subst hout
    exact List.Pairwise.sublist (List.take_sublist limit arrangement) hsorted

/-- Witness for the amended C6: at a concrete state, a concrete admissible
result is timestamp-descending sorted. -/
theorem recentMessages_order_underspecified_witness :
    admissibleRecentResult ⟨[⟨1, "alice", "a@x.com"⟩],
        [⟨1, "first", 5, 1⟩, ⟨2, "second", 5, 1⟩], [], []⟩ [1] 100
      [⟨2, "second", 5, 1⟩, ⟨1, "first", 5, 1⟩] ∧
    List.Sorted tsDesc [(⟨2, "second", 5, 1⟩ : MessageRec), ⟨1, "first", 5, 1⟩] :=
  ⟨⟨[⟨2, "second", 5, 1⟩, ⟨1, "first", 5, 1⟩], by decide, by decide, by decide⟩,
    (recentMessages_order_underspecified ⟨[⟨1, "alice", "a@x.com"⟩],
        [⟨1, "first", 5, 1⟩, ⟨2, "second", 5, 1⟩], [], []⟩ [1] 100).2
      [⟨2, "second", 5, 1⟩, ⟨1, "first", 5, 1⟩]
      ⟨[⟨2, "second", 5, 1⟩, ⟨1, "first", 5, 1⟩], by decide, by decide, by decide⟩⟩

/-- Outcome of the `messages_add` view (`app.py`, `/messages/new`). -/
inductive CreateMessageResult where
  | unauthenticated : CreateMessageResult
  | formInvalid : CreateMessageResult
  | storageError : CreateMessageResult
  | success : CreateMessageResult
  deriving DecidableEq, Repr

/-- Modelled from the spec: the bounded length of the Message text column
lives in the data-access layer (`models.py`), which is not among the sources;
spec §3 bounds the text content at "at most 140 characters".  The store
rejects an insert whose text exceeds the bound, creating no row; otherwise it
appends the row. -/
def insertMessage (s : DBState) (uid : Nat) (text : String) (mid ts : Nat) :
    Except Unit DBState :=
  if text.length ≤ 140 then
    Except.ok { s with messages := s.messages ++ [⟨mid, text, ts, uid⟩] }
  else Except.error ()

/-- WTForms' `DataRequired` validator on a string field fails exactly when the
field's data is empty or consists only of whitespace (`not field.data or not
field.data.strip()`). -/
def dataMissing (text : String) : Bool :=
  text.data.all (fun c => c.isWhitespace)

/-- The `messages_add` view function of `app.py` together with `forms.py`'s
`MessageForm`: requires a logged-in user; the form's only text validator is
`DataRequired`, which fails on an empty (or all-whitespace) text and
re-presents the form without mutating; on a valid form the message is
appended to `g.user.messages` and committed.  The fresh message id and the
server-assigned creation timestamp are passed as parameters. -/
def messages_add (s : DBState) (currUser : Option Nat) (text : String)
    (mid ts : Nat) : CreateMessageResult × DBState :=
  match currUser with
  | none => (CreateMessageResult.unauthenticated, s)
  | some uid =>
    if dataMissing text then (CreateMessageResult.formInvalid, s)
    else
      match insertMessage s uid text mid ts with
      | Except.error _ => (CreateMessageResult.storageError, s)
      | Except.ok s2 => (CreateMessageResult.success, s2)

/-- C7: creating a message with empty text fails form validation, and creating
one whose text exceeds 140 characters also fails; in both cases no message row
is created (the state is unchanged). -/
theorem messages_add_rejects_empty_and_overlong
    (s : DBState) (uid : Nat) (text : String) (mid ts : Nat) :
    (text = "" →
      messages_add s (some uid) text mid ts = (CreateMessageResult.formInvalid, s)) ∧
    (140 < text.length →
      (messages_add s (some uid) text mid ts).1 ≠ CreateMessageResult.success ∧
      (messages_add s (some uid) text mid ts).2 = s) := by
  constructor
  · intro h
    subst h
    have h0 : dataMissing "" = true := by decide
    simp [messages_add, h0]
  · intro hlen
    by_cases he : dataMissing text = true
    · simp [messages_add, he]
    · have hins : insertMessage s uid text mid ts = Except.error () := by
        simp [insertMessage, Nat.not_le.mpr hlen]
      simp [messages_add, he, hins]

set_option maxRecDepth 4000 in
/-- Witness for C7: the empty text and a 141-character text are both rejected
without creating a row. -/
theorem messages_add_rejects_empty_and_overlong_witness :
    (messages_add ⟨[⟨1, "alice", "a@x.com"⟩], [], [], []⟩ (some 1) "" 10 5 =
      (CreateMessageResult.formInvalid, ⟨[⟨1, "alice", "a@x.com"⟩], [], [], []⟩)) ∧
    (140 < (String.mk (List.replicate 141 'a')).length ∧
      (messages_add ⟨[⟨1, "alice", "a@x.com"⟩], [], [], []⟩ (some 1)
        (String.mk (List.replicate 141 'a')) 10 5).1 ≠ CreateMessageResult.success ∧
      (messages_add ⟨[⟨1, "alice", "a@x.com"⟩], [], [], []⟩ (some 1)
        (String.mk (List.replicate 141 'a')) 10 5).2 =
        ⟨[⟨1, "alice", "a@x.com"⟩], [], [], []⟩) :=
  ⟨(messages_add_rejects_empty_and_overlong
      ⟨[⟨1, "alice", "a@x.com"⟩], [], [], []⟩ 1 "" 10 5).1 rfl,
    (by decide),
    ((messages_add_rejects_empty_and_overlong
      ⟨[⟨1, "alice", "a@x.com"⟩], [], [], []⟩ 1 (String.mk (List.replicate 141 'a'))
      10 5).2 (by decide)).1,
    ((messages_add_rejects_empty_and_overlong
      ⟨[⟨1, "alice", "a@x.com"⟩], [], [], []⟩ 1 (String.mk (List.replicate 141 'a'))
      10 5).2 (by decide)).2⟩

/-- Outcome of the `signup` view (`app.py`, `/signup`).  A conflict carries
the flash message shown to the user. -/
inductive SignupResult where
  | alreadySignedIn : SignupResult
  | formInvalid : SignupResult
  | conflict : String → SignupResult
  | success : SignupResult
  deriving DecidableEq, Repr

/-- Modelled from the spec: uniqueness of username and email is a
storage-level constraint of the users relation (spec §3: "username and email
are unique across all Users at all times"; spec §5 makes a storage-layer
uniqueness constraint mandatory; `models.py` is not among the sources).
Committing an insert that collides with an existing row on either column
raises an IntegrityError and leaves the relation unchanged. -/
def insertUser (s : DBState) (u : UserRec) : Except Unit DBState :=
  if s.users.any (fun v => v.username == u.username || v.email == u.email) then
    Except.error ()
  else Except.ok { s with users := s.users ++ [u] }

/-- The `signup` view function of `app.py` together with `forms.py`'s
`UserAddForm`: an already-signed-in caller is redirected home; the form
requires a username, an email, and a password of at least 6 characters;
`User.signup` inserts the row and a commit-time IntegrityError is caught and
surfaced as the single generic flash "Username and/or email already taken"
with the form re-presented; on success the new user is logged in.  The fresh
user id is a parameter.  Returns the result, the session identity afterwards,
and the new state. -/
def signup (s : DBState) (currUser : Option Nat)
    (username email password : String) (newId : Nat) :
    SignupResult × Option Nat × DBState :=
  match currUser with
  | some uid => (SignupResult.alreadySignedIn, some uid, s)
  | none =>
    if dataMissing username || dataMissing email || dataMissing password ||
        password.length < 6 then
      (SignupResult.formInvalid, none, s)
    else
      match insertUser s ⟨newId, username, email⟩ with
      | Except.error _ =>
        (SignupResult.conflict "Username and/or email already taken", none, s)
      | Except.ok s2 => (SignupResult.success, some newId, s2)

/-- C8: a signup whose username or email collides with an existing user fails
with the single generic conflict message — the same constant string whichever
field collided — nobody is logged in, and the state (so the users relation)
is unchanged. -/
theorem signup_conflict_generic (s : DBState)
    (username email password : String) (newId : Nat)
    (hu : dataMissing username = false) (he : dataMissing email = false)
    (hp : dataMissing password = false) (hlen : 6 ≤ password.length)
    (hdup : ∃ v ∈ s.users, v.username = username ∨ v.email = email) :
    signup s none username email password newId =
      (SignupResult.conflict "Username and/or email already taken", none, s) := by
  have hany : s.users.any (fun v => v.username == username || v.email == email) = true := by
    rcases hdup with ⟨v, hv, hcase⟩
    apply List.any_eq_true.mpr
    refine ⟨v, hv, ?_⟩
    rcases hcase with h | h <;> simp [h]
  have hins : insertUser s ⟨newId, username, email⟩ = Except.error () := by
    simp [insertUser, hany]
  simp [signup, hu, he, hp, Nat.not_lt.mpr hlen, hins]

/-- Witness for C8: signing up as "alice" (username already taken) with a
fresh email and a valid password is rejected with the generic conflict. -/
theorem signup_conflict_generic_witness :
    (dataMissing "alice" = false ∧ dataMissing "new@x.com" = false ∧
      dataMissing "secret1" = false ∧ 6 ≤ ("secret1" : String).length ∧
      (∃ v ∈ (⟨[⟨1, "alice", "a@x.com"⟩], [], [], []⟩ : DBState).users,
        v.username = "alice" ∨ v.email = "new@x.com")) ∧
    signup ⟨[⟨1, "alice", "a@x.com"⟩], [], [], []⟩ none "alice" "new@x.com" "secret1" 2 =
      (SignupResult.conflict "Username and/or email already taken", none,
        ⟨[⟨1, "alice", "a@x.com"⟩], [], [], []⟩) :=
  ⟨⟨by decide, by decide, by decide, by decide, by decide⟩,
    signup_conflict_generic ⟨[⟨1, "alice", "a@x.com"⟩], [], [], []⟩
      "alice" "new@x.com" "secret1" 2 (by decide) (by decide) (by decide) (by decide)
      (by decide)⟩

/-- Outcome of a read-only user-scoped listing view. -/
inductive UserViewResult (α : Type) where
  | unauthenticated : UserViewResult α
  | notFound : UserViewResult α
  | page : α → UserViewResult α
  deriving DecidableEq, Repr

/-- The users the given user follows (`user.following`), as rendered by the
following page. -/
def followingUsers (s : DBState) (uid : Nat) : List UserRec :=
  s.users.filter (fun u => (uid, u.id) ∈ s.follows)

/-- The users following the given user (`user.followers`), as rendered by the
followers page. -/
def followerUsers (s : DBState) (uid : Nat) : List UserRec :=
  s.users.filter (fun u => (u.id, uid) ∈ s.follows)

/-- The messages the given user has liked (`user.likes`), as rendered by the
likes page. -/
def likedMessages (s : DBState) (uid : Nat) : List MessageRec :=
  s.messages.filter (fun m => (uid, m.id) ∈ s.likes)

/-- The `show_following` view of `app.py` (`/users/<id>/following`): an
anonymous caller is flashed "Sign in to see a user's following." and
redirected home with no data and no mutation; otherwise the user is looked up
(404 when absent) and the page renders `user.following`. -/
def show_following (s : DBState) (currUser : Option Nat) (user_id : Nat) :
    UserViewResult (List UserRec) × DBState :=
  match currUser with
  | none => (UserViewResult.unauthenticated, s)
  | some _ =>
    match findUser s user_id with
    | none => (UserViewResult.notFound, s)
    | some _ => (UserViewResult.page (followingUsers s user_id), s)

/-- The `users_followers` view of `app.py` (`/users/<id>/followers`): an
anonymous caller is flashed "Sign in to see a user's followers." and
redirected home with no data and no mutation; otherwise the user is looked up
(404 when absent) and the page renders `user.followers`. -/
def users_followers (s : DBState) (currUser : Option Nat) (user_id : Nat) :
    UserViewResult (List UserRec) × DBState :=
  match currUser with
  | none => (UserViewResult.unauthenticated, s)
  | some _ =>
    match findUser s user_id with
    | none => (UserViewResult.notFound, s)
    | some _ => (UserViewResult.page (followerUsers s user_id), s)

/-- The `view_likes` view of `app.py` (`/users/<id>/likes`): an anonymous
caller is flashed "Sign in to see a user's liked warbles." and redirected home
with no data and no mutation; otherwise the user is looked up (404 when
absent) and the page renders `user.likes`. -/
def view_likes (s : DBState) (currUser : Option Nat) (user_id : Nat) :
    UserViewResult (List MessageRec) × DBState :=
  match currUser with
  | none => (UserViewResult.unauthenticated, s)
  | some _ =>
    match findUser s user_id with
    | none => (UserViewResult.notFound, s)
    | some _ => (UserViewResult.page (likedMessages s user_id), s)

/-- C10: with no authenticated identity, the following list, the followers
list, and the liked-messages list of any user are all rejected with a
redirect, returning none of the requested data and changing no state. -/
theorem anonymous_listing_views_rejected (s : DBState) (user_id : Nat) :
    show_following s none user_id = (UserViewResult.unauthenticated, s) ∧
    users_followers s none user_id = (UserViewResult.unauthenticated, s) ∧
    view_likes s none user_id = (UserViewResult.unauthenticated, s) :=
  ⟨rfl, rfl, rfl⟩
